import Mathlib

/-!
Shallow embedding of the grade aggregation and ranking engine of the BrainBoard
grade-book (src/App.tsx): the sequence aggregator `calculateSequenceResults`,
the term/annual aggregator `calculateTermResults` (with its inner
`calculateTerm`, annual combination and `calculateStats`), and the student
report compiler `handleGenerateStudentReport`.  JavaScript numbers are embedded
as rationals; `Array.prototype.sort` with the comparator
`(a, b) => b.average - a.average` is a stable descending sort by `average`
(ES2019), embedded as a stable insertion sort.
-/

/-- A student record (`Student` in src/types.ts). -/
structure Student where
  id : String
  name : String
deriving DecidableEq, Repr

/-- A subject record (`Subject` in src/types.ts); `total` is the maximum
attainable mark for the subject. -/
structure Subject where
  id : String
  name : String
  total : ℚ
deriving DecidableEq, Repr

/-- A mark record (`Mark` in src/types.ts): one student's mark value for one
subject in one sequence. -/
structure Mark where
  id : String
  studentId : String
  subjectId : String
  sequence : String
  marks : ℚ
deriving DecidableEq, Repr

/-- One per-student result row (`SequenceResult` / `TermResult`); the source
creates rows with `rank: 0` (or without a rank) before ranking. -/
structure ResultRow where
  student : String
  totalMarks : ℚ
  average : ℚ
  rank : ℕ
deriving DecidableEq, Repr

/-- One per-student annual row (`AnnualResult`). -/
structure AnnualResult where
  student : String
  firstTermAverage : ℚ
  secondTermAverage : ℚ
  thirdTermAverage : ℚ
  finalAverage : ℚ
  rank : ℕ
deriving DecidableEq, Repr

/-- `PASSING_MARK = 10` (App.tsx line 70). -/
def PASSING_MARK : ℚ := 10

/-- `marks.find(m => m.studentId === sid && m.subjectId === bid && m.sequence === q)?.marks || 0`
(App.tsx lines 274-276 and 320-322): the value of the first matching mark
record, defaulting to 0 when none exists. -/
def markFor (marks : List Mark) (studentId subjectId sequence : String) : ℚ :=
  match marks.find? fun m =>
      m.studentId == studentId && m.subjectId == subjectId && m.sequence == sequence with
  | some m => m.marks
  | none => 0

/-- The `subjects.forEach` accumulation of one student's summed marks for one
sequence together with the summed possible total (App.tsx lines 273-279 and
319-325), embedded as a left fold over the pair
`(totalMarks/sequenceMarks, totalPossible/sequencePossible)`. -/
def sequenceTotals (sequence : String) (student : Student)
    (subjects : List Subject) (marks : List Mark) : ℚ × ℚ :=
  subjects.foldl
    (fun acc subject =>
      (acc.1 + markFor marks student.id subject.id sequence, acc.2 + subject.total))
    (0, 0)

/-- The unranked per-student rows of the sequence aggregator
(App.tsx lines 269-283). -/
def sequenceRows (selectedSequence : String) (students : List Student)
    (subjects : List Subject) (marks : List Mark) : List ResultRow :=
  students.map fun student =>
    let acc := sequenceTotals selectedSequence student subjects marks
    { student := student.name
      totalMarks := acc.1
      average := if acc.2 > 0 then acc.1 / acc.2 * 20 else 0
      rank := 0 }

/-- `[...results].sort((a, b) => b.average - a.average)`: a stable descending
sort by a rational key. -/
def sortByDesc (key : α → ℚ) (l : List α) : List α :=
  l.insertionSort fun a b => key a ≥ key b

/-- `sorted.map((result, idx) => ({ ...result, rank: idx + 1 }))`, unfolded
with an explicit position counter: the head of the list receives rank `k`. -/
def assignRanksFrom (setRank : α → ℕ → α) (k : ℕ) : List α → List α
  | [] => []
  | r :: rs => setRank r k :: assignRanksFrom setRank (k + 1) rs

/-- Rank assignment starting from rank 1. -/
def assignRanks (setRank : α → ℕ → α) (l : List α) : List α :=
  assignRanksFrom setRank 1 l

/-- Output of the sequence aggregator: ordered ranked rows, class average and
pass percentage. -/
structure SequenceOutput where
  results : List ResultRow
  classAverage : ℚ
  passPercentage : ℚ
deriving DecidableEq, Repr

/-- App.tsx lines 268-299, `calculateSequenceResults`.  The class average is
`results.reduce((sum, r) => sum + r.average, 0) / results.length || 0`; with
rational division (where `x / 0 = 0`) the `|| 0` guard, which catches exactly
the `0 / 0 = NaN` case of an empty class, is already built into `sum / N`. -/
def calculateSequenceResults (selectedSequence : String) (students : List Student)
    (subjects : List Subject) (marks : List Mark) : SequenceOutput :=
  let results := sequenceRows selectedSequence students subjects marks
  let sortedResults := sortByDesc (fun r => r.average) results
  let resultsWithRank := assignRanks (fun r k => { r with rank := k }) sortedResults
  let classAvg := (results.map fun r => r.average).sum / (results.length : ℚ)
  let passCount := (results.filter fun r => decide (r.average ≥ PASSING_MARK)).length
  let passPerc :=
    if results.length > 0 then ((passCount : ℚ) / (results.length : ℚ)) * 100 else 0
  { results := resultsWithRank, classAverage := classAvg, passPercentage := passPerc }

/-- The static term-to-sequences table (App.tsx lines 303-307). -/
def termSequences : String → List String
  | "firstTerm" => ["firstSequence", "secondSequence"]
  | "secondTerm" => ["thirdSequence", "fourthSequence"]
  | "thirdTerm" => ["fifthSequence", "sixthSequence"]
  | _ => []

/-- The unranked per-student rows of one term (App.tsx lines 310-336): the
`sequences.forEach` accumulation of `(totalMarks, totalPossible, sequenceCount)`
where a sequence contributes iff its summed marks are strictly positive. -/
def termRows (sequences : List String) (students : List Student)
    (subjects : List Subject) (marks : List Mark) : List ResultRow :=
  students.map fun student =>
    let acc := sequences.foldl
      (fun (acc : ℚ × ℚ × ℕ) sequence =>
        let st := sequenceTotals sequence student subjects marks
        if st.1 > 0 then (acc.1 + st.1, acc.2.1 + st.2, acc.2.2 + 1) else acc)
      (0, 0, 0)
    { student := student.name
      totalMarks := acc.1
      average := if acc.2.2 > 0 then acc.1 / acc.2.1 * 20 else 0
      rank := 0 }

/-- App.tsx lines 309-343, `calculateTerm`: term rows sorted stably by
descending average, with ranks `idx + 1` assigned. -/
def calculateTerm (sequences : List String) (students : List Student)
    (subjects : List Subject) (marks : List Mark) : List ResultRow :=
  assignRanks (fun r k => { r with rank := k })
    (sortByDesc (fun r => r.average) (termRows sequences students subjects marks))

/-- `results.find(r => r.student === student.name)?.average || 0`
(App.tsx lines 350-352): the average of the first row matching the student's
display name, defaulting to 0 when none exists. -/
def termAverageFor (results : List ResultRow) (name : String) : ℚ :=
  match results.find? fun r => r.student == name with
  | some r => r.average
  | none => 0

/-- One student's unranked annual row (App.tsx lines 349-365). -/
def annualRowFor (student : Student)
    (firstTermResults secondTermResults thirdTermResults : List ResultRow) : AnnualResult :=
  let firstTermResult := termAverageFor firstTermResults student.name
  let secondTermResult := termAverageFor secondTermResults student.name
  let thirdTermResult := termAverageFor thirdTermResults student.name
  let validTerms :=
    [firstTermResult, secondTermResult, thirdTermResult].filter fun avg => decide (avg > 0)
  let finalAverage :=
    if validTerms.length > 0 then validTerms.sum / (validTerms.length : ℚ) else 0
  { student := student.name
    firstTermAverage := firstTermResult
    secondTermAverage := secondTermResult
    thirdTermAverage := thirdTermResult
    finalAverage := finalAverage
    rank := 0 }

/-- The unranked annual rows (App.tsx lines 349-365). -/
def annualRows (students : List Student)
    (firstTermResults secondTermResults thirdTermResults : List ResultRow) : List AnnualResult :=
  students.map fun student =>
    annualRowFor student firstTermResults secondTermResults thirdTermResults

/-- App.tsx lines 373-382, `calculateStats`, applied to the extracted list of
averages (the `isAnnual` flag in the source only selects whether that list is
read from the `average` or the `finalAverage` field).  Returns
`(classAvg, passPerc)`. -/
def calculateStats (averages : List ℚ) : ℚ × ℚ :=
  let validAverages := averages.filter fun avg => decide (avg > 0)
  let classAvg :=
    if validAverages.length > 0 then validAverages.sum / (validAverages.length : ℚ) else 0
  let passCount := (validAverages.filter fun avg => decide (avg ≥ PASSING_MARK)).length
  let passPerc :=
    if validAverages.length > 0
    then ((passCount : ℚ) / (validAverages.length : ℚ)) * 100 else 0
  (classAvg, passPerc)

/-- Output of `calculateTermResults`: the three ranked term result sets, the
ranked annual result set, and the four `(classAvg, passPerc)` statistic pairs. -/
structure TermOutput where
  firstTermResults : List ResultRow
  secondTermResults : List ResultRow
  thirdTermResults : List ResultRow
  annualResults : List AnnualResult
  firstTermStats : ℚ × ℚ
  secondTermStats : ℚ × ℚ
  thirdTermStats : ℚ × ℚ
  annualStats : ℚ × ℚ
deriving DecidableEq, Repr

/-- App.tsx lines 302-405, `calculateTermResults`. -/
def calculateTermResults (students : List Student) (subjects : List Subject)
    (marks : List Mark) : TermOutput :=
  let firstTermResults := calculateTerm (termSequences "firstTerm") students subjects marks
  let secondTermResults := calculateTerm (termSequences "secondTerm") students subjects marks
  let thirdTermResults := calculateTerm (termSequences "thirdTerm") students subjects marks
  let annual := annualRows students firstTermResults secondTermResults thirdTermResults
  let annualResultsWithRank := assignRanks (fun r k => { r with rank := k })
    (sortByDesc (fun r => r.finalAverage) annual)
  { firstTermResults := firstTermResults
    secondTermResults := secondTermResults
    thirdTermResults := thirdTermResults
    annualResults := annualResultsWithRank
    firstTermStats := calculateStats (firstTermResults.map fun r => r.average)
    secondTermStats := calculateStats (secondTermResults.map fun r => r.average)
    thirdTermStats := calculateStats (thirdTermResults.map fun r => r.average)
    annualStats := calculateStats (annualResultsWithRank.map fun r => r.finalAverage) }

/-- The six fixed sequence keys of `StudentMarks` (src/types.ts, and the object
literal initialiser in App.tsx lines 411-418). -/
def sequenceKeys : List String :=
  ["firstSequence", "secondSequence", "thirdSequence", "fourthSequence",
   "fifthSequence", "sixthSequence"]

/-- One `subjectName → markValue` map as an insertion-ordered association list
(JavaScript object semantics: assignment to an existing key updates it in
place, a new key is appended). -/
def setEntry (l : List (String × ℚ)) (k : String) (v : ℚ) : List (String × ℚ) :=
  match l with
  | [] => [(k, v)]
  | (k0, v0) :: rest => if k0 == k then (k0, v) :: rest else (k0, v0) :: setEntry rest k v

/-- The `StudentMarks` shape: one sparse `subjectName → markValue` map per
sequence key. -/
structure StudentMarks where
  firstSequence : List (String × ℚ)
  secondSequence : List (String × ℚ)
  thirdSequence : List (String × ℚ)
  fourthSequence : List (String × ℚ)
  fifthSequence : List (String × ℚ)
  sixthSequence : List (String × ℚ)
deriving DecidableEq, Repr

/-- The all-empty initial `StudentMarks` object (App.tsx lines 411-418). -/
def emptyStudentMarks : StudentMarks := ⟨[], [], [], [], [], []⟩

/-- `studentMarks[m.sequence][subject.name] = m.marks` (App.tsx line 423):
writing under one of the six fixed keys updates that nested map; under any
other key `studentMarks[m.sequence]` is `undefined` and the nested assignment
throws a TypeError, embedded as `none`. -/
def setMark (sm : StudentMarks) (sequence subjectName : String) (v : ℚ) :
    Option StudentMarks :=
  if sequence == "firstSequence" then
    some { sm with firstSequence := setEntry sm.firstSequence subjectName v }
  else if sequence == "secondSequence" then
    some { sm with secondSequence := setEntry sm.secondSequence subjectName v }
  else if sequence == "thirdSequence" then
    some { sm with thirdSequence := setEntry sm.thirdSequence subjectName v }
  else if sequence == "fourthSequence" then
    some { sm with fourthSequence := setEntry sm.fourthSequence subjectName v }
  else if sequence == "fifthSequence" then
    some { sm with fifthSequence := setEntry sm.fifthSequence subjectName v }
  else if sequence == "sixthSequence" then
    some { sm with sixthSequence := setEntry sm.sixthSequence subjectName v }
  else none

/-- One iteration of the `marks.forEach` loop of the report compiler
(App.tsx lines 419-426): marks of other students are skipped, a mark whose
subject id matches no subject is skipped, and a thrown TypeError aborts the
loop, so `none` propagates. -/
def buildStep (studentId : String) (subjects : List Subject)
    (acc : Option StudentMarks) (m : Mark) : Option StudentMarks :=
  match acc with
  | none => none
  | some sm =>
    if m.studentId == studentId then
      match subjects.find? fun s => s.id == m.subjectId with
      | some subject => setMark sm m.sequence subject.name m.marks
      | none => some sm
    else some sm

/-- The whole `marks.forEach` loop of the report compiler
(App.tsx lines 419-426). -/
def buildStudentMarks (studentId : String) (subjects : List Subject)
    (marks : List Mark) : Option StudentMarks :=
  marks.foldl (buildStep studentId subjects) (some emptyStudentMarks)

/-- Outcome of `handleGenerateStudentReport` (App.tsx lines 408-442):
`noStudent` when the student id matches no student (the handler silently does
nothing), `report` with the compiled data handed to the external document
generator, or `crash` when the marks loop throws. -/
inductive ReportOutcome
  | noStudent
  | report (studentName : String) (sm : StudentMarks)
  | crash
deriving DecidableEq, Repr

/-- App.tsx lines 408-442, `handleGenerateStudentReport`, restricted to its
computational content (the external `generateStudentReport` rendering call is
out of scope). -/
def handleGenerateStudentReport (studentId : String) (students : List Student)
    (subjects : List Subject) (marks : List Mark) : ReportOutcome :=
  match students.find? fun s => s.id == studentId with
  | none => ReportOutcome.noStudent
  | some student =>
    match buildStudentMarks studentId subjects marks with
    | none => ReportOutcome.crash
    | some sm => ReportOutcome.report student.name sm

/-- Modelled from the spec: the external document generator
(src/utils/pdfGenerator, not present under src/) selects the term or annual row
for a student by display-name lookup over the already-computed result rows,
skipping silently (no row) when no name matches. -/
def lookupRowByName (rows : List ResultRow) (name : String) : Option ResultRow :=
  rows.find? fun r => r.student == name

/-! ### Fold characterisations -/

lemma foldl_pair_add (f g : α → ℚ) :
    ∀ (l : List α) (a b : ℚ),
      l.foldl (fun acc x => (acc.1 + f x, acc.2 + g x)) (a, b)
        = (a + (l.map f).sum, b + (l.map g).sum)
  | [], a, b => by simp
  | x :: l, a, b => by
    simp only [List.foldl_cons, List.map_cons, List.sum_cons]
    rw [foldl_pair_add f g l]
    simp [add_assoc]

lemma sequenceTotals_eq (sequence : String) (student : Student)
    (subjects : List Subject) (marks : List Mark) :
    sequenceTotals sequence student subjects marks
      = ((subjects.map fun sb => markFor marks student.id sb.id sequence).sum,
         (subjects.map Subject.total).sum) := by
  simpa [sequenceTotals] using
    foldl_pair_add (fun sb => markFor marks student.id sb.id sequence)
      Subject.total subjects 0 0

lemma foldl_cond_triple (f g : α → ℚ) (p : α → Prop) [DecidablePred p] :
    ∀ (l : List α) (a b : ℚ) (c : ℕ),
      l.foldl
          (fun acc x => if p x then (acc.1 + f x, acc.2.1 + g x, acc.2.2 + 1) else acc)
          (a, b, c)
        = (a + ((l.filter fun x => decide (p x)).map f).sum,
           b + ((l.filter fun x => decide (p x)).map g).sum,
           c + (l.filter fun x => decide (p x)).length)
  | [], a, b, c => by simp
  | x :: l, a, b, c => by
    by_cases hx : p x
    · simp only [List.foldl_cons, if_pos hx, List.filter_cons, decide_eq_true hx,
        if_true, List.map_cons, List.sum_cons, List.length_cons]
      rw [foldl_cond_triple f g p l]
      simp [add_assoc, add_comm, add_left_comm]
    · simp only [List.foldl_cons, if_neg hx, List.filter_cons,
        decide_eq_false hx, if_false]
      exact foldl_cond_triple f g p l a b c

lemma sequenceRows_eq (selectedSequence : String) (students : List Student)
    (subjects : List Subject) (marks : List Mark) :
    sequenceRows selectedSequence students subjects marks = students.map fun student =>
      let totalMarks :=
        (subjects.map fun sb => markFor marks student.id sb.id selectedSequence).sum
      let totalPossible := (subjects.map Subject.total).sum
      { student := student.name
        totalMarks := totalMarks
        average := if totalPossible > 0 then totalMarks / totalPossible * 20 else 0
        rank := 0 } := by
  unfold sequenceRows
  refine List.map_congr_left fun student _ => ?_
  rw [sequenceTotals_eq]

lemma termRows_eq (sequences : List String) (students : List Student)
    (subjects : List Subject) (marks : List Mark) :
    termRows sequences students subjects marks = students.map fun student =>
      let seqM := fun q => (subjects.map fun sb => markFor marks student.id sb.id q).sum
      let entered := sequences.filter fun q => decide (seqM q > 0)
      let totalMarks := (entered.map seqM).sum
      let totalPossible := (entered.map fun _ => (subjects.map Subject.total).sum).sum
      { student := student.name
        totalMarks := totalMarks
        average := if entered.length > 0 then totalMarks / totalPossible * 20 else 0
        rank := 0 } := by
  unfold termRows
  refine List.map_congr_left fun student _ => ?_
  have hfold := foldl_cond_triple
    (fun q => (sequenceTotals q student subjects marks).1)
    (fun q => (sequenceTotals q student subjects marks).2)
    (fun q => (sequenceTotals q student subjects marks).1 > 0)
    sequences 0 0 0
  simp only [hfold]
  have hkey : (fun q => decide ((sequenceTotals q student subjects marks).1 > 0))
      = fun q =>
        decide ((subjects.map fun sb => markFor marks student.id sb.id q).sum > 0) := by
    funext q
    rw [sequenceTotals_eq]
  have hmap1 : (fun q => (sequenceTotals q student subjects marks).1)
      = fun q => (subjects.map fun sb => markFor marks student.id sb.id q).sum := by
    funext q
    rw [sequenceTotals_eq]
  have hmap2 : (fun q => (sequenceTotals q student subjects marks).2)
      = fun _ => (subjects.map Subject.total).sum := by
    funext q
    rw [sequenceTotals_eq]
  rw [hkey, hmap1, hmap2]
  simp

/-! ### Stable sorting -/

lemma sortByDesc_perm (key : α → ℚ) (l : List α) : List.Perm (sortByDesc key l) l :=
  List.perm_insertionSort _ l

lemma sortByDesc_length (key : α → ℚ) (l : List α) :
    (sortByDesc key l).length = l.length :=
  (sortByDesc_perm key l).length_eq

lemma sortByDesc_sorted (key : α → ℚ) (l : List α) :
    List.Sorted (fun a b => key a ≥ key b) (sortByDesc key l) := by
  haveI : IsTotal α fun a b => key a ≥ key b := ⟨fun a b => le_total (key b) (key a)⟩
  haveI : IsTrans α fun a b => key a ≥ key b := ⟨fun _ _ _ h1 h2 => le_trans h2 h1⟩
  exact List.sorted_insertionSort _ l

lemma filter_orderedInsert_key (key : α → ℚ) (q : ℚ) (a : α) :
    ∀ l : List α,
      ((List.orderedInsert (fun x y => key x ≥ key y) a l).filter
          fun x => decide (key x = q))
        = if key a = q
          then a :: l.filter fun x => decide (key x = q)
          else l.filter fun x => decide (key x = q)
  | [] => by
    by_cases h : key a = q <;> simp [List.orderedInsert, h]
  | b :: bs => by
    by_cases hab : key a ≥ key b
    · simp only [List.orderedInsert, if_pos hab]
      by_cases h : key a = q <;> simp [h]
    · have hba : key b > key a := lt_of_not_ge hab
      simp only [List.orderedInsert, if_neg hab]
      by_cases h : key a = q
      · have hbq : ¬ key b = q := by
          intro hb
          rw [h] at hba
          rw [hb] at hba
          exact lt_irrefl q hba
        simp only [List.filter_cons, decide_eq_false hbq, Bool.false_eq_true,
          if_false, if_pos h]
        rw [filter_orderedInsert_key key q a bs]
        simp [h]
      · simp only [List.filter_cons]
        rw [filter_orderedInsert_key key q a bs]
        simp [h]

lemma sortByDesc_filter_key (key : α → ℚ) (q : ℚ) :
    ∀ l : List α,
      ((sortByDesc key l).filter fun x => decide (key x = q))
        = l.filter fun x => decide (key x = q)
  | [] => rfl
  | a :: l => by
    show ((List.orderedInsert (fun x y => key x ≥ key y) a
        (List.insertionSort (fun x y => key x ≥ key y) l)).filter
          fun x => decide (key x = q)) = _
    rw [filter_orderedInsert_key]
    rw [show List.insertionSort (fun x y => key x ≥ key y) l = sortByDesc key l from rfl,
      sortByDesc_filter_key key q l]
    by_cases h : key a = q <;> simp [h, List.filter_cons]

/-! ### Rank assignment -/

lemma assignRanksFrom_map (s : α → ℕ → α) (f : α → β) (hf : ∀ a k, f (s a k) = f a) :
    ∀ (l : List α) (k : ℕ), (assignRanksFrom s k l).map f = l.map f
  | [], _ => rfl
  | r :: rs, k => by
    simp only [assignRanksFrom, List.map_cons, hf r k,
      assignRanksFrom_map s f hf rs (k + 1)]

lemma assignRanksFrom_map_rank (s : α → ℕ → α) (g : α → ℕ)
    (hg : ∀ a k, g (s a k) = k) :
    ∀ (l : List α) (k : ℕ), (assignRanksFrom s k l).map g = List.range' k l.length
  | [], _ => rfl
  | r :: rs, k => by
    simp only [assignRanksFrom, List.map_cons, hg r k, List.length_cons,
      List.range'_succ, assignRanksFrom_map_rank s g hg rs (k + 1)]

lemma assignRanksFrom_length (s : α → ℕ → α) :
    ∀ (l : List α) (k : ℕ), (assignRanksFrom s k l).length = l.length
  | [], _ => rfl
  | _ :: rs, k => by
    simp only [assignRanksFrom, List.length_cons, assignRanksFrom_length s rs (k + 1)]

lemma mem_assignRanksFrom (s : α → ℕ → α) :
    ∀ {l : List α} {k : ℕ} {b : α}, b ∈ assignRanksFrom s k l →
      ∃ a ∈ l, ∃ j, b = s a j
  | [], _, _, h => absurd h (List.not_mem_nil _)
  | r :: rs, k, b, h => by
    rcases List.mem_cons.mp h with h | h
    · exact ⟨r, List.mem_cons_self r rs, k, h⟩
    · obtain ⟨a, ha, j, hb⟩ := mem_assignRanksFrom s h
      exact ⟨a, List.mem_cons_of_mem r ha, j, hb⟩

lemma assignRanksFrom_pairwise (s : α → ℕ → α) (R : α → α → Prop)
    (hR : ∀ a b j j', R a b → R (s a j) (s b j')) :
    ∀ {l : List α} (k : ℕ), List.Pairwise R l → List.Pairwise R (assignRanksFrom s k l)
  | [], _, _ => List.Pairwise.nil
  | r :: rs, k, h => by
    rcases List.pairwise_cons.mp h with ⟨hr, hrs⟩
    refine List.pairwise_cons.mpr ⟨?_, assignRanksFrom_pairwise s R hR (k + 1) hrs⟩
    intro b hb
    obtain ⟨a, ha, j, hbj⟩ := mem_assignRanksFrom s hb
    exact hbj ▸ hR r a k j (hr a ha)

/-! ### Arithmetic bounds -/

lemma sum_div_length_nonneg (l : List ℚ) (h : ∀ x ∈ l, 0 ≤ x) :
    0 ≤ l.sum / (l.length : ℚ) :=
  div_nonneg (List.sum_nonneg h) (Nat.cast_nonneg _)

lemma sum_div_length_le (l : List ℚ) (b : ℚ) (hne : l ≠ []) (h : ∀ x ∈ l, x ≤ b) :
    l.sum / (l.length : ℚ) ≤ b := by
  have hlen : 0 < (l.length : ℚ) := by
    exact_mod_cast List.length_pos.mpr hne
  rw [div_le_iff₀ hlen]
  calc l.sum ≤ l.length • b := List.sum_le_card_nsmul l b h
    _ = (l.length : ℚ) * b := nsmul_eq_mul _ _
    _ = b * (l.length : ℚ) := mul_comm _ _

lemma ratio_mul20_bounds {tm tp : ℚ} (h0 : 0 ≤ tm) (h1 : tm ≤ tp) (h2 : 0 < tp) :
    0 ≤ tm / tp * 20 ∧ tm / tp * 20 ≤ 20 := by
  constructor
  · positivity
  · have h : tm / tp ≤ 1 := (div_le_one h2).mpr h1
    calc tm / tp * 20 ≤ 1 * 20 := mul_le_mul_of_nonneg_right h (by norm_num)
      _ = 20 := one_mul 20

lemma markFor_bounds (marks : List Mark) (subjects : List Subject) (sid q : String)
    (sb : Subject) (hsb : sb ∈ subjects) (htot : 0 ≤ sb.total)
    (hnn : ∀ m ∈ marks, 0 ≤ m.marks)
    (hub : ∀ m ∈ marks, ∀ s ∈ subjects, s.id = m.subjectId → m.marks ≤ s.total) :
    0 ≤ markFor marks sid sb.id q ∧ markFor marks sid sb.id q ≤ sb.total := by
  unfold markFor
  cases hfind : marks.find? fun m =>
      m.studentId == sid && m.subjectId == sb.id && m.sequence == q with
  | none => exact ⟨le_refl 0, htot⟩
  | some m =>
    have hmem : m ∈ marks := List.mem_of_find?_eq_some hfind
    have hp := List.find?_some hfind
    simp only [Bool.and_eq_true, beq_iff_eq] at hp
    exact ⟨hnn m hmem, hub m hmem sb hsb hp.1.2.symm⟩

lemma seq_sum_bounds (marks : List Mark) (subjects : List Subject) (sid q : String)
    (hpos : ∀ sb ∈ subjects, 0 < sb.total)
    (hnn : ∀ m ∈ marks, 0 ≤ m.marks)
    (hub : ∀ m ∈ marks, ∀ s ∈ subjects, s.id = m.subjectId → m.marks ≤ s.total) :
    0 ≤ (subjects.map fun sb => markFor marks sid sb.id q).sum ∧
      (subjects.map fun sb => markFor marks sid sb.id q).sum
        ≤ (subjects.map Subject.total).sum := by
  constructor
  · refine List.sum_nonneg ?_
    intro x hx
    obtain ⟨sb, hsb, rfl⟩ := List.mem_map.mp hx
    exact (markFor_bounds marks subjects sid q sb hsb (le_of_lt (hpos sb hsb)) hnn hub).1
  · refine List.sum_le_sum ?_
    intro sb hsb
    exact (markFor_bounds marks subjects sid q sb hsb (le_of_lt (hpos sb hsb)) hnn hub).2

lemma avg_if_bounds {tm tp : ℚ} (h0 : 0 ≤ tm) (h1 : tm ≤ tp) :
    0 ≤ (if tp > 0 then tm / tp * 20 else 0) ∧
      (if tp > 0 then tm / tp * 20 else 0) ≤ 20 := by
  by_cases h : tp > 0
  · rw [if_pos h]
    exact ratio_mul20_bounds h0 h1 h
  · rw [if_neg h]
    norm_num

lemma mean_bounds (l : List ℚ) (h : ∀ x ∈ l, 0 ≤ x ∧ x ≤ 20) :
    0 ≤ l.sum / (l.length : ℚ) ∧ l.sum / (l.length : ℚ) ≤ 20 := by
  rcases eq_or_ne l [] with rfl | hne
  · norm_num
  · exact ⟨sum_div_length_nonneg l fun x hx => (h x hx).1,
      sum_div_length_le l 20 hne fun x hx => (h x hx).2⟩

lemma sequenceRows_avg_bounds (q : String) (students : List Student)
    (subjects : List Subject) (marks : List Mark)
    (hpos : ∀ sb ∈ subjects, 0 < sb.total)
    (hnn : ∀ m ∈ marks, 0 ≤ m.marks)
    (hub : ∀ m ∈ marks, ∀ s ∈ subjects, s.id = m.subjectId → m.marks ≤ s.total) :
    ∀ r ∈ sequenceRows q students subjects marks, 0 ≤ r.average ∧ r.average ≤ 20 := by
  intro r hr
  rw [sequenceRows_eq] at hr
  obtain ⟨student, _, rfl⟩ := List.mem_map.mp hr
  obtain ⟨h0, h1⟩ := seq_sum_bounds marks subjects student.id q hpos hnn hub
  exact avg_if_bounds h0 h1

lemma count_avg_bounds {S P : ℚ} {n : ℕ} (hS0 : 0 ≤ S) (hSP : S ≤ P)
    (hP : n > 0 → 0 < P) :
    0 ≤ (if n > 0 then S / P * 20 else 0) ∧
      (if n > 0 then S / P * 20 else 0) ≤ 20 := by
  by_cases h : n > 0
  · rw [if_pos h]
    exact ratio_mul20_bounds hS0 hSP (hP h)
  · rw [if_neg h]
    norm_num

lemma termRows_avg_bounds (sequences : List String) (students : List Student)
    (subjects : List Subject) (marks : List Mark)
    (hpos : ∀ sb ∈ subjects, 0 < sb.total)
    (hnn : ∀ m ∈ marks, 0 ≤ m.marks)
    (hub : ∀ m ∈ marks, ∀ s ∈ subjects, s.id = m.subjectId → m.marks ≤ s.total) :
    ∀ r ∈ termRows sequences students subjects marks, 0 ≤ r.average ∧ r.average ≤ 20 := by
  intro r hr
  rw [termRows_eq] at hr
  obtain ⟨student, _, rfl⟩ := List.mem_map.mp hr
  have hS0 : 0 ≤ ((sequences.filter fun q0 =>
      decide ((subjects.map fun sb => markFor marks student.id sb.id q0).sum > 0)).map
        fun q0 => (subjects.map fun sb => markFor marks student.id sb.id q0).sum).sum := by
    refine List.sum_nonneg ?_
    intro x hx
    obtain ⟨q0, _, rfl⟩ := List.mem_map.mp hx
    exact (seq_sum_bounds marks subjects student.id q0 hpos hnn hub).1
  have hSP : ((sequences.filter fun q0 =>
      decide ((subjects.map fun sb => markFor marks student.id sb.id q0).sum > 0)).map
        fun q0 => (subjects.map fun sb => markFor marks student.id sb.id q0).sum).sum
      ≤ ((sequences.filter fun q0 =>
      decide ((subjects.map fun sb => markFor marks student.id sb.id q0).sum > 0)).map
        fun _ => (subjects.map Subject.total).sum).sum := by
    refine List.sum_le_sum ?_
    intro q0 _
    exact (seq_sum_bounds marks subjects student.id q0 hpos hnn hub).2
  refine count_avg_bounds hS0 hSP ?_
  intro hn
  have hne : (sequences.filter fun q0 =>
      decide ((subjects.map fun sb => markFor marks student.id sb.id q0).sum > 0)) ≠ [] :=
    List.length_pos.mp hn
  have hSpos : 0 < ((sequences.filter fun q0 =>
      decide ((subjects.map fun sb => markFor marks student.id sb.id q0).sum > 0)).map
        fun q0 => (subjects.map fun sb => markFor marks student.id sb.id q0).sum).sum := by
    refine List.sum_pos _ ?_ ?_
    · intro x hx
      obtain ⟨q0, hq0, rfl⟩ := List.mem_map.mp hx
      exact of_decide_eq_true (List.mem_filter.mp hq0).2
    · simpa using hne
  exact lt_of_lt_of_le hSpos hSP

lemma mem_rankedRows {l : List ResultRow} {r : ResultRow}
    (hr : r ∈ assignRanks (fun r0 k => { r0 with rank := k })
      (sortByDesc (fun r0 => r0.average) l)) :
    ∃ r0 ∈ l, r0.average = r.average := by
  obtain ⟨a, ha, j, rfl⟩ := mem_assignRanksFrom _ hr
  exact ⟨a, (sortByDesc_perm _ _).mem_iff.mp ha, rfl⟩

lemma mem_rankedAnnual {l : List AnnualResult} {r : AnnualResult}
    (hr : r ∈ assignRanks (fun r0 k => { r0 with rank := k })
      (sortByDesc (fun r0 => r0.finalAverage) l)) :
    ∃ r0 ∈ l, r0.finalAverage = r.finalAverage ∧ r0.firstTermAverage = r.firstTermAverage
      ∧ r0.secondTermAverage = r.secondTermAverage
      ∧ r0.thirdTermAverage = r.thirdTermAverage := by
  obtain ⟨a, ha, j, rfl⟩ := mem_assignRanksFrom _ hr
  exact ⟨a, (sortByDesc_perm _ _).mem_iff.mp ha, rfl, rfl, rfl, rfl⟩

lemma termAverageFor_bounds {rows : List ResultRow}
    (h : ∀ r ∈ rows, 0 ≤ r.average ∧ r.average ≤ 20) (name : String) :
    0 ≤ termAverageFor rows name ∧ termAverageFor rows name ≤ 20 := by
  unfold termAverageFor
  cases hfind : rows.find? fun r => r.student == name with
  | none => norm_num
  | some r => exact h r (List.mem_of_find?_eq_some hfind)

/-! ### The sort-and-rank pipeline -/

lemma rankedRows_pipeline (rows : List ResultRow) (h0 : ∀ r ∈ rows, r.rank = 0) :
    ((assignRanks (fun r k => { r with rank := k })
        (sortByDesc (fun r => r.average) rows)).map fun r => r.rank)
      = List.range' 1 rows.length ∧
    List.Sorted (fun a b => a.average ≥ b.average)
      (assignRanks (fun r k => { r with rank := k })
        (sortByDesc (fun r => r.average) rows)) ∧
    (∀ q : ℚ,
      ((sortByDesc (fun r => r.average) rows).filter fun r => decide (r.average = q))
        = rows.filter fun r => decide (r.average = q)) ∧
    ((assignRanks (fun r k => { r with rank := k })
        (sortByDesc (fun r => r.average) rows)).map fun r => { r with rank := 0 })
      = sortByDesc (fun r => r.average) rows := by
  refine ⟨?_, ?_, ?_, ?_⟩
  · rw [assignRanks, assignRanksFrom_map_rank
      (fun (r : ResultRow) k => { r with rank := k }) (fun r => r.rank)
      (fun _ _ => rfl), sortByDesc_length]
  · have hs := sortByDesc_sorted (fun r : ResultRow => r.average) rows
    exact assignRanksFrom_pairwise (fun (r : ResultRow) k => { r with rank := k })
      (fun a b => a.average ≥ b.average) (fun _ _ _ _ h => h) 1 hs
  · exact fun q => sortByDesc_filter_key (fun r => r.average) q rows
  · rw [assignRanks, assignRanksFrom_map
      (fun (r : ResultRow) k => { r with rank := k })
      (fun r => ({ r with rank := 0 } : ResultRow)) (fun _ _ => rfl)]
    have hmem : ∀ r ∈ sortByDesc (fun r0 : ResultRow => r0.average) rows,
        ({ r with rank := 0 } : ResultRow) = r := by
      intro r hrm
      have : r.rank = 0 := h0 r ((sortByDesc_perm _ _).mem_iff.mp hrm)
      cases r
      simpa using this.symm
    rw [List.map_congr_left hmem]
    exact List.map_id _

lemma rankedAnnual_pipeline (rows : List AnnualResult) (h0 : ∀ r ∈ rows, r.rank = 0) :
    ((assignRanks (fun r k => { r with rank := k })
        (sortByDesc (fun r => r.finalAverage) rows)).map fun r => r.rank)
      = List.range' 1 rows.length ∧
    List.Sorted (fun a b => a.finalAverage ≥ b.finalAverage)
      (assignRanks (fun r k => { r with rank := k })
        (sortByDesc (fun r => r.finalAverage) rows)) ∧
    (∀ q : ℚ,
      ((sortByDesc (fun r => r.finalAverage) rows).filter
          fun r => decide (r.finalAverage = q))
        = rows.filter fun r => decide (r.finalAverage = q)) ∧
    ((assignRanks (fun r k => { r with rank := k })
        (sortByDesc (fun r => r.finalAverage) rows)).map fun r => { r with rank := 0 })
      = sortByDesc (fun r => r.finalAverage) rows := by
  refine ⟨?_, ?_, ?_, ?_⟩
  · rw [assignRanks, assignRanksFrom_map_rank
      (fun (r : AnnualResult) k => { r with rank := k }) (fun r => r.rank)
      (fun _ _ => rfl), sortByDesc_length]
  · have hs := sortByDesc_sorted (fun r : AnnualResult => r.finalAverage) rows
    exact assignRanksFrom_pairwise (fun (r : AnnualResult) k => { r with rank := k })
      (fun a b => a.finalAverage ≥ b.finalAverage) (fun _ _ _ _ h => h) 1 hs
  · exact fun q => sortByDesc_filter_key (fun r => r.finalAverage) q rows
  · rw [assignRanks, assignRanksFrom_map
      (fun (r : AnnualResult) k => { r with rank := k })
      (fun r => ({ r with rank := 0 } : AnnualResult)) (fun _ _ => rfl)]
    have hmem : ∀ r ∈ sortByDesc (fun r0 : AnnualResult => r0.finalAverage) rows,
        ({ r with rank := 0 } : AnnualResult) = r := by
      intro r hrm
      have : r.rank = 0 := h0 r ((sortByDesc_perm _ _).mem_iff.mp hrm)
      cases r
      simpa using this.symm
    rw [List.map_congr_left hmem]
    exact List.map_id _

lemma sequenceRows_rank0 (q : String) (students : List Student)
    (subjects : List Subject) (marks : List Mark) :
    ∀ r ∈ sequenceRows q students subjects marks, r.rank = 0 := by
  intro r hr
  obtain ⟨student, _, rfl⟩ := List.mem_map.mp hr
  rfl

lemma termRows_rank0 (sequences : List String) (students : List Student)
    (subjects : List Subject) (marks : List Mark) :
    ∀ r ∈ termRows sequences students subjects marks, r.rank = 0 := by
  intro r hr
  obtain ⟨student, _, rfl⟩ := List.mem_map.mp hr
  rfl

lemma annualRows_rank0 (students : List Student) (r1 r2 r3 : List ResultRow) :
    ∀ r ∈ annualRows students r1 r2 r3, r.rank = 0 := by
  intro r hr
  obtain ⟨student, _, rfl⟩ := List.mem_map.mp hr
  rfl

/-! ### Claims -/

/-- C1: For every sequence label, student list, subject list and mark list, the
sequence aggregator computes for each student (in input order) `totalMarks` as
the sum over all subjects of that student's mark value for the selected
sequence (the value defaults to 0 when no matching Mark record exists),
`totalPossible` as the sum of every subject's `total` regardless of whether
marks were entered, and `average = totalMarks / totalPossible * 20` when
`totalPossible > 0`, else 0. -/
theorem c1_sequence_aggregation (selectedSequence : String) (students : List Student)
    (subjects : List Subject) (marks : List Mark) :
    (sequenceRows selectedSequence students subjects marks = students.map fun student =>
      let totalMarks :=
        (subjects.map fun sb => markFor marks student.id sb.id selectedSequence).sum
      let totalPossible := (subjects.map Subject.total).sum
      { student := student.name
        totalMarks := totalMarks
        average := if totalPossible > 0 then totalMarks / totalPossible * 20 else 0
        rank := 0 }) ∧
    (∀ (marks0 : List Mark) (sid bid q0 : String),
      markFor marks0 sid bid q0
        = ((marks0.find? fun m =>
            m.studentId == sid && m.subjectId == bid && m.sequence == q0).map
              Mark.marks).getD 0) := by
  refine ⟨sequenceRows_eq selectedSequence students subjects marks, ?_⟩
  intro marks0 sid bid q0
  cases hf : marks0.find? fun m =>
      m.studentId == sid && m.subjectId == bid && m.sequence == q0 <;>
    simp [markFor, hf]

/-- C3: For every list of sequences (in particular each term's fixed pair of
sequences), the term aggregator treats a sequence as entered for a student iff
that student's summed marks for the sequence are strictly greater than 0 (a
numeric threshold); only entered sequences contribute their sequenceMarks to
totalMarks and their sequencePossible to totalPossible and are counted by
sequenceCount, and the term average is totalMarks / totalPossible * 20 when
sequenceCount > 0, else 0. -/
theorem c3_term_aggregation (sequences : List String) (students : List Student)
    (subjects : List Subject) (marks : List Mark) :
    (termRows sequences students subjects marks = students.map fun student =>
      let seqM := fun q => (subjects.map fun sb => markFor marks student.id sb.id q).sum
      let entered := sequences.filter fun q => decide (seqM q > 0)
      let totalMarks := (entered.map seqM).sum
      let totalPossible := (entered.map fun _ => (subjects.map Subject.total).sum).sum
      { student := student.name
        totalMarks := totalMarks
        average := if entered.length > 0 then totalMarks / totalPossible * 20 else 0
        rank := 0 }) ∧
    (calculateTerm sequences students subjects marks
      = assignRanks (fun r k => { r with rank := k })
          (sortByDesc (fun r => r.average)
            (termRows sequences students subjects marks))) :=
  ⟨termRows_eq sequences students subjects marks, rfl⟩

/-- C9: For every fixed snapshot, running the sequence aggregator twice yields
identical ordered result rows, class average and pass percentage: the
computation is a deterministic pure function of the snapshot (the embedding
reads nothing but its four snapshot arguments). -/
theorem c9_deterministic (selectedSequence : String) (students : List Student)
    (subjects : List Subject) (marks : List Mark) :
    (calculateSequenceResults selectedSequence students subjects marks).results
        = (calculateSequenceResults selectedSequence students subjects marks).results ∧
    (calculateSequenceResults selectedSequence students subjects marks).classAverage
        = (calculateSequenceResults selectedSequence students subjects marks).classAverage ∧
    (calculateSequenceResults selectedSequence students subjects marks).passPercentage
        = (calculateSequenceResults selectedSequence students subjects marks).passPercentage ∧
    calculateSequenceResults selectedSequence students subjects marks
        = calculateSequenceResults selectedSequence students subjects marks :=
  ⟨rfl, rfl, rfl, rfl⟩

/-- C5: Sequence-level statistics are computed over all N students including
those with average 0: the class average is the arithmetic mean of `average`
over all N students, the pass percentage is `100 * count(average ≥ 10) / N`,
and both are 0 when N = 0. -/
theorem c5_sequence_stats (selectedSequence : String) (students : List Student)
    (subjects : List Subject) (marks : List Mark) :
    (calculateSequenceResults selectedSequence students subjects marks).classAverage
        = (if students.length = 0 then 0
           else ((sequenceRows selectedSequence students subjects marks).map
              fun r => r.average).sum / (students.length : ℚ)) ∧
    (calculateSequenceResults selectedSequence students subjects marks).passPercentage
        = (if students.length = 0 then 0
           else 100 * (((sequenceRows selectedSequence students subjects marks).filter
              fun r => decide (r.average ≥ 10)).length : ℚ) / (students.length : ℚ)) := by
  have hlen : (sequenceRows selectedSequence students subjects marks).length
      = students.length := List.length_map _ _
  constructor
  · show ((sequenceRows selectedSequence students subjects marks).map
        fun r => r.average).sum
        / ((sequenceRows selectedSequence students subjects marks).length : ℚ) = _
    rw [hlen]
    rcases Nat.eq_zero_or_pos students.length with h0 | hpos
    · rw [if_pos h0, h0]
      norm_num
    · rw [if_neg (Nat.pos_iff_ne_zero.mp hpos)]
  · show (if (sequenceRows selectedSequence students subjects marks).length > 0
        then ((((sequenceRows selectedSequence students subjects marks).filter
            fun r => decide (r.average ≥ 10)).length : ℚ)
          / ((sequenceRows selectedSequence students subjects marks).length : ℚ)) * 100
        else 0) = _
    rw [hlen]
    rcases Nat.eq_zero_or_pos students.length with h0 | hpos
    · rw [h0]
      simp
    · rw [if_pos hpos, if_neg (Nat.pos_iff_ne_zero.mp hpos),
        div_mul_eq_mul_div, mul_comm]

/-- C2: For every result set — sequence, each term, and annual — the ranked
output is the input rows sorted by average (finalAverage for annual) descending
with a stable sort (rows with equal key keep their relative order from the
input student list, stated as invariance of every equal-key filter), and
rank = position + 1, so in output order the assigned ranks read exactly
1, 2, …, N: the permutation {1, …, N} with tied students receiving consecutive
distinct ranks. -/
theorem c2_ranking (students : List Student) (subjects : List Subject)
    (marks : List Mark) :
    (∀ selectedSequence : String,
      ((calculateSequenceResults selectedSequence students subjects marks).results.map
          fun r => r.rank) = List.range' 1 students.length ∧
      List.Sorted (fun a b => a.average ≥ b.average)
        (calculateSequenceResults selectedSequence students subjects marks).results ∧
      (∀ q : ℚ,
        ((sortByDesc (fun r => r.average)
            (sequenceRows selectedSequence students subjects marks)).filter
              fun r => decide (r.average = q))
          = (sequenceRows selectedSequence students subjects marks).filter
              fun r => decide (r.average = q)) ∧
      ((calculateSequenceResults selectedSequence students subjects marks).results.map
          fun r => { r with rank := 0 })
        = sortByDesc (fun r => r.average)
            (sequenceRows selectedSequence students subjects marks)) ∧
    (∀ sequences : List String,
      ((calculateTerm sequences students subjects marks).map fun r => r.rank)
          = List.range' 1 students.length ∧
      List.Sorted (fun a b => a.average ≥ b.average)
        (calculateTerm sequences students subjects marks) ∧
      (∀ q : ℚ,
        ((sortByDesc (fun r => r.average)
            (termRows sequences students subjects marks)).filter
              fun r => decide (r.average = q))
          = (termRows sequences students subjects marks).filter
              fun r => decide (r.average = q)) ∧
      ((calculateTerm sequences students subjects marks).map
          fun r => { r with rank := 0 })
        = sortByDesc (fun r => r.average)
            (termRows sequences students subjects marks)) ∧
    (((calculateTermResults students subjects marks).annualResults.map
        fun r => r.rank) = List.range' 1 students.length ∧
      List.Sorted (fun a b => a.finalAverage ≥ b.finalAverage)
        (calculateTermResults students subjects marks).annualResults ∧
      (∀ q : ℚ,
        ((sortByDesc (fun r => r.finalAverage)
            (annualRows students
              (calculateTermResults students subjects marks).firstTermResults
              (calculateTermResults students subjects marks).secondTermResults
              (calculateTermResults students subjects marks).thirdTermResults)).filter
              fun r => decide (r.finalAverage = q))
          = (annualRows students
              (calculateTermResults students subjects marks).firstTermResults
              (calculateTermResults students subjects marks).secondTermResults
              (calculateTermResults students subjects marks).thirdTermResults).filter
              fun r => decide (r.finalAverage = q)) ∧
      ((calculateTermResults students subjects marks).annualResults.map
          fun r => { r with rank := 0 })
        = sortByDesc (fun r => r.finalAverage)
            (annualRows students
              (calculateTermResults students subjects marks).firstTermResults
              (calculateTermResults students subjects marks).secondTermResults
              (calculateTermResults students subjects marks).thirdTermResults)) := by
  refine ⟨?_, ?_, ?_⟩
  · intro selectedSequence
    obtain ⟨h1, h2, h3, h4⟩ := rankedRows_pipeline
      (sequenceRows selectedSequence students subjects marks)
      (sequenceRows_rank0 selectedSequence students subjects marks)
    have hlen : (sequenceRows selectedSequence students subjects marks).length
        = students.length := List.length_map _ _
    exact ⟨hlen ▸ h1, h2, h3, h4⟩
  · intro sequences
    obtain ⟨h1, h2, h3, h4⟩ := rankedRows_pipeline
      (termRows sequences students subjects marks)
      (termRows_rank0 sequences students subjects marks)
    have hlen : (termRows sequences students subjects marks).length
        = students.length := List.length_map _ _
    exact ⟨hlen ▸ h1, h2, h3, h4⟩
  · obtain ⟨h1, h2, h3, h4⟩ := rankedAnnual_pipeline
      (annualRows students
        (calculateTermResults students subjects marks).firstTermResults
        (calculateTermResults students subjects marks).secondTermResults
        (calculateTermResults students subjects marks).thirdTermResults)
      (annualRows_rank0 students _ _ _)
    have hlen : (annualRows students
        (calculateTermResults students subjects marks).firstTermResults
        (calculateTermResults students subjects marks).secondTermResults
        (calculateTermResults students subjects marks).thirdTermResults).length
        = students.length := List.length_map _ _
    exact ⟨hlen ▸ h1, h2, h3, h4⟩

lemma termAverageFor_getD (rows : List ResultRow) (name : String) :
    termAverageFor rows name
      = ((rows.find? fun r => r.student == name).map fun r => r.average).getD 0 := by
  cases hf : rows.find? fun r => r.student == name <;> simp [termAverageFor, hf]

/-- C4: For every student list and three term result sets, the annual
aggregator reads each student's three term averages by matching term-result
rows on the student's display name (defaulting to 0 when no row with that name
exists); validTerms is the subset of the three term averages strictly greater
than 0, and finalAverage is the arithmetic mean of validTerms when it is
non-empty, else 0.  The produced row depends on the student record only
through the display name, not the id. -/
theorem c4_annual_aggregation (students : List Student) (r1 r2 r3 : List ResultRow) :
    (annualRows students r1 r2 r3 = students.map fun student =>
      let ft := ((r1.find? fun r => r.student == student.name).map
        fun r => r.average).getD 0
      let sd := ((r2.find? fun r => r.student == student.name).map
        fun r => r.average).getD 0
      let td := ((r3.find? fun r => r.student == student.name).map
        fun r => r.average).getD 0
      let validTerms := [ft, sd, td].filter fun avg => decide (avg > 0)
      { student := student.name
        firstTermAverage := ft
        secondTermAverage := sd
        thirdTermAverage := td
        finalAverage :=
          if validTerms.length > 0 then validTerms.sum / (validTerms.length : ℚ) else 0
        rank := 0 }) ∧
    (∀ (rows : List ResultRow) (name : String),
      (∀ r ∈ rows, r.student ≠ name) → termAverageFor rows name = 0) ∧
    (∀ (student : Student) (id2 : String),
      annualRowFor { id := id2, name := student.name } r1 r2 r3
        = annualRowFor student r1 r2 r3) := by
  refine ⟨?_, ?_, ?_⟩
  · refine List.map_congr_left fun student _ => ?_
    simp only [annualRowFor, termAverageFor_getD]
  · intro rows name h
    unfold termAverageFor
    cases hf : rows.find? fun r => r.student == name with
    | none => rfl
    | some r =>
      have hr : r ∈ rows := List.mem_of_find?_eq_some hf
      have hp := List.find?_some hf
      rw [beq_iff_eq] at hp
      exact absurd hp (h r hr)
  · intro student id2
    rfl

theorem c4_annual_aggregation_witness :
    (∀ r ∈ ([{ student := "A", totalMarks := 0, average := 14, rank := 1 }] :
        List ResultRow), r.student ≠ "B") ∧
    termAverageFor [{ student := "A", totalMarks := 0, average := 14, rank := 1 }] "B"
      = 0 :=
  ⟨by decide,
    (c4_annual_aggregation [] [] [] []).2.1
      [{ student := "A", totalMarks := 0, average := 14, rank := 1 }] "B" (by decide)⟩

/-- C6: Term and annual class average and pass percentage are computed only
over entries whose average (finalAverage for annual) is strictly greater than
0: the statistics calculator filters to positive averages before averaging and
counting, an entry with average exactly 0 changes neither statistic, the four
term/annual statistic pairs are produced by that filtered calculator, while at
sequence level the class average keeps all N students in the denominator. -/
theorem c6_term_annual_stats_filter (students : List Student)
    (subjects : List Subject) (marks : List Mark) :
    (∀ averages : List ℚ,
      calculateStats averages
        = (if (averages.filter fun a => decide (a > 0)).length = 0 then 0
           else (averages.filter fun a => decide (a > 0)).sum
             / ((averages.filter fun a => decide (a > 0)).length : ℚ),
           if (averages.filter fun a => decide (a > 0)).length = 0 then 0
           else 100 * (((averages.filter fun a => decide (a > 0)).filter
               fun a => decide (a ≥ 10)).length : ℚ)
             / ((averages.filter fun a => decide (a > 0)).length : ℚ))) ∧
    (∀ averages : List ℚ,
      calculateStats ((0 : ℚ) :: averages) = calculateStats averages) ∧
    ((calculateTermResults students subjects marks).firstTermStats
        = calculateStats
          ((calculateTermResults students subjects marks).firstTermResults.map
            fun r => r.average) ∧
      (calculateTermResults students subjects marks).secondTermStats
        = calculateStats
          ((calculateTermResults students subjects marks).secondTermResults.map
            fun r => r.average) ∧
      (calculateTermResults students subjects marks).thirdTermStats
        = calculateStats
          ((calculateTermResults students subjects marks).thirdTermResults.map
            fun r => r.average) ∧
      (calculateTermResults students subjects marks).annualStats
        = calculateStats
          ((calculateTermResults students subjects marks).annualResults.map
            fun r => r.finalAverage)) ∧
    (∀ selectedSequence : String,
      (calculateSequenceResults selectedSequence students subjects marks).classAverage
        = if students.length = 0 then 0
          else ((sequenceRows selectedSequence students subjects marks).map
            fun r => r.average).sum / (students.length : ℚ)) := by
  refine ⟨?_, ?_, ⟨rfl, rfl, rfl, rfl⟩, ?_⟩
  · intro averages
    rcases Nat.eq_zero_or_pos (averages.filter fun a => decide (a > 0)).length
      with h0 | hpos
    · have hne : ¬ (averages.filter fun a => decide (a > 0)).length > 0 := by omega
      simp only [calculateStats, PASSING_MARK, if_neg hne, if_pos h0]
    · have hne := Nat.pos_iff_ne_zero.mp hpos
      simp only [calculateStats, PASSING_MARK, if_pos hpos, if_neg hne]
      rw [Prod.mk.injEq]
      refine ⟨rfl, ?_⟩
      rw [div_mul_eq_mul_div, mul_comm]
  · intro averages
    have hf : ((0 : ℚ) :: averages).filter (fun a => decide (a > 0))
        = averages.filter fun a => decide (a > 0) := by
      simp [List.filter_cons]
    simp only [calculateStats, hf]
  · intro selectedSequence
    have hlen : (sequenceRows selectedSequence students subjects marks).length
        = students.length := List.length_map _ _
    show ((sequenceRows selectedSequence students subjects marks).map
        fun r => r.average).sum
        / ((sequenceRows selectedSequence students subjects marks).length : ℚ) = _
    rw [hlen]
    rcases Nat.eq_zero_or_pos students.length with h0 | hpos
    · rw [if_pos h0, h0]
      norm_num
    · rw [if_neg (Nat.pos_iff_ne_zero.mp hpos)]

lemma ite_mean_bounds (l : List ℚ) (h : ∀ x ∈ l, 0 ≤ x ∧ x ≤ 20) :
    0 ≤ (if l.length > 0 then l.sum / (l.length : ℚ) else 0) ∧
      (if l.length > 0 then l.sum / (l.length : ℚ) else 0) ≤ 20 := by
  by_cases hl : l.length > 0
  · rw [if_pos hl]
    exact mean_bounds l h
  · rw [if_neg hl]
    norm_num

lemma calculateStats_classAvg_bounds (avgs : List ℚ)
    (h : ∀ x ∈ avgs, 0 ≤ x ∧ x ≤ 20) :
    0 ≤ (calculateStats avgs).1 ∧ (calculateStats avgs).1 ≤ 20 := by
  have hf : ∀ x ∈ avgs.filter fun a => decide (a > 0), 0 ≤ x ∧ x ≤ 20 :=
    fun x hx => h x (List.mem_filter.mp hx).1
  exact ite_mean_bounds (avgs.filter fun a => decide (a > 0)) hf

lemma annualRowFor_bounds {r1 r2 r3 : List ResultRow}
    (h1 : ∀ r ∈ r1, 0 ≤ r.average ∧ r.average ≤ 20)
    (h2 : ∀ r ∈ r2, 0 ≤ r.average ∧ r.average ≤ 20)
    (h3 : ∀ r ∈ r3, 0 ≤ r.average ∧ r.average ≤ 20) (student : Student) :
    (0 ≤ (annualRowFor student r1 r2 r3).firstTermAverage ∧
      (annualRowFor student r1 r2 r3).firstTermAverage ≤ 20) ∧
    (0 ≤ (annualRowFor student r1 r2 r3).secondTermAverage ∧
      (annualRowFor student r1 r2 r3).secondTermAverage ≤ 20) ∧
    (0 ≤ (annualRowFor student r1 r2 r3).thirdTermAverage ∧
      (annualRowFor student r1 r2 r3).thirdTermAverage ≤ 20) ∧
    (0 ≤ (annualRowFor student r1 r2 r3).finalAverage ∧
      (annualRowFor student r1 r2 r3).finalAverage ≤ 20) := by
  have hft := termAverageFor_bounds h1 student.name
  have hsd := termAverageFor_bounds h2 student.name
  have htd := termAverageFor_bounds h3 student.name
  refine ⟨hft, hsd, htd, ?_⟩
  have hv : ∀ x ∈ [termAverageFor r1 student.name, termAverageFor r2 student.name,
      termAverageFor r3 student.name].filter fun avg => decide (avg > 0),
      0 ≤ x ∧ x ≤ 20 := by
    intro x hx
    have hx3 := (List.mem_filter.mp hx).1
    simp only [List.mem_cons, List.not_mem_nil, or_false] at hx3
    rcases hx3 with rfl | rfl | rfl
    · exact hft
    · exact hsd
    · exact htd
  exact ite_mean_bounds _ hv

/-- C7: For every snapshot in which the subject set is non-empty with strictly
positive totals and every mark value is non-negative and bounded by its
subject's total, every computed average — per-student sequence average, term
average, the annual per-term averages and finalAverage, and every class
average — lies in [0, 20]. -/
theorem c7_average_bounds (selectedSequence : String) (students : List Student)
    (subjects : List Subject) (marks : List Mark)
    (_hone : subjects ≠ [])
    (hpos : ∀ sb ∈ subjects, 0 < sb.total)
    (hnn : ∀ m ∈ marks, 0 ≤ m.marks)
    (hub : ∀ m ∈ marks, ∀ s ∈ subjects, s.id = m.subjectId → m.marks ≤ s.total) :
    (∀ r ∈ (calculateSequenceResults selectedSequence students subjects marks).results,
      0 ≤ r.average ∧ r.average ≤ 20) ∧
    (0 ≤ (calculateSequenceResults selectedSequence students subjects marks).classAverage ∧
      (calculateSequenceResults selectedSequence students subjects marks).classAverage
        ≤ 20) ∧
    (∀ sequences : List String, ∀ r ∈ calculateTerm sequences students subjects marks,
      0 ≤ r.average ∧ r.average ≤ 20) ∧
    (∀ r ∈ (calculateTermResults students subjects marks).annualResults,
      (0 ≤ r.firstTermAverage ∧ r.firstTermAverage ≤ 20) ∧
      (0 ≤ r.secondTermAverage ∧ r.secondTermAverage ≤ 20) ∧
      (0 ≤ r.thirdTermAverage ∧ r.thirdTermAverage ≤ 20) ∧
      (0 ≤ r.finalAverage ∧ r.finalAverage ≤ 20)) ∧
    (0 ≤ (calculateTermResults students subjects marks).firstTermStats.1 ∧
      (calculateTermResults students subjects marks).firstTermStats.1 ≤ 20) ∧
    (0 ≤ (calculateTermResults students subjects marks).secondTermStats.1 ∧
      (calculateTermResults students subjects marks).secondTermStats.1 ≤ 20) ∧
    (0 ≤ (calculateTermResults students subjects marks).thirdTermStats.1 ∧
      (calculateTermResults students subjects marks).thirdTermStats.1 ≤ 20) ∧
    (0 ≤ (calculateTermResults students subjects marks).annualStats.1 ∧
      (calculateTermResults students subjects marks).annualStats.1 ≤ 20) := by
  have hseqrows := sequenceRows_avg_bounds selectedSequence students subjects marks
    hpos hnn hub
  have htermcalc : ∀ sequences : List String,
      ∀ r ∈ calculateTerm sequences students subjects marks,
        0 ≤ r.average ∧ r.average ≤ 20 := by
    intro sequences r hr
    obtain ⟨r0, hr0, heq⟩ := mem_rankedRows hr
    exact heq ▸ termRows_avg_bounds sequences students subjects marks hpos hnn hub r0 hr0
  have hannrows : ∀ r ∈ annualRows students
      (calculateTerm (termSequences "firstTerm") students subjects marks)
      (calculateTerm (termSequences "secondTerm") students subjects marks)
      (calculateTerm (termSequences "thirdTerm") students subjects marks),
      (0 ≤ r.firstTermAverage ∧ r.firstTermAverage ≤ 20) ∧
      (0 ≤ r.secondTermAverage ∧ r.secondTermAverage ≤ 20) ∧
      (0 ≤ r.thirdTermAverage ∧ r.thirdTermAverage ≤ 20) ∧
      (0 ≤ r.finalAverage ∧ r.finalAverage ≤ 20) := by
    intro r hr
    obtain ⟨student, _, rfl⟩ := List.mem_map.mp hr
    exact annualRowFor_bounds (htermcalc _) (htermcalc _) (htermcalc _) student
  refine ⟨?_, ?_, htermcalc, ?_, ?_, ?_, ?_, ?_⟩
  · intro r hr
    obtain ⟨r0, hr0, heq⟩ := mem_rankedRows hr
    exact heq ▸ hseqrows r0 hr0
  · have hb := mean_bounds
      ((sequenceRows selectedSequence students subjects marks).map fun r => r.average)
      (by
        intro x hx
        obtain ⟨r, hr, rfl⟩ := List.mem_map.mp hx
        exact hseqrows r hr)
    rw [List.length_map] at hb
    exact hb
  · intro r hr
    obtain ⟨r0, hr0, heq1, heq2, heq3, heq4⟩ := mem_rankedAnnual hr
    have := hannrows r0 hr0
    rw [heq1, heq2, heq3, heq4] at this
    exact this
  · refine calculateStats_classAvg_bounds _ ?_
    intro x hx
    obtain ⟨r, hr, rfl⟩ := List.mem_map.mp hx
    exact htermcalc _ r hr
  · refine calculateStats_classAvg_bounds _ ?_
    intro x hx
    obtain ⟨r, hr, rfl⟩ := List.mem_map.mp hx
    exact htermcalc _ r hr
  · refine calculateStats_classAvg_bounds _ ?_
    intro x hx
    obtain ⟨r, hr, rfl⟩ := List.mem_map.mp hx
    exact htermcalc _ r hr
  · refine calculateStats_classAvg_bounds _ ?_
    intro x hx
    obtain ⟨r, hr, rfl⟩ := List.mem_map.mp hx
    obtain ⟨r0, hr0, heq1, _, _, _⟩ := mem_rankedAnnual hr
    exact heq1 ▸ (hannrows r0 hr0).2.2.2

theorem c7_average_bounds_witness :
    (([⟨"b1", "Math", 20⟩] : List Subject) ≠ [] ∧
      (∀ sb ∈ ([⟨"b1", "Math", 20⟩] : List Subject), 0 < sb.total) ∧
      (∀ m ∈ ([⟨"m1", "s1", "b1", "firstSequence", 15⟩] : List Mark), 0 ≤ m.marks) ∧
      (∀ m ∈ ([⟨"m1", "s1", "b1", "firstSequence", 15⟩] : List Mark),
        ∀ s ∈ ([⟨"b1", "Math", 20⟩] : List Subject),
          s.id = m.subjectId → m.marks ≤ s.total)) ∧
    (∀ r ∈ (calculateSequenceResults "firstSequence" [⟨"s1", "Alice"⟩]
        [⟨"b1", "Math", 20⟩] [⟨"m1", "s1", "b1", "firstSequence", 15⟩]).results,
      0 ≤ r.average ∧ r.average ≤ 20) :=
  ⟨⟨by decide, by decide, by decide, by decide⟩,
    (c7_average_bounds "firstSequence" [⟨"s1", "Alice"⟩] [⟨"b1", "Math", 20⟩]
      [⟨"m1", "s1", "b1", "firstSequence", 15⟩]
      (by decide) (by decide) (by decide) (by decide)).1⟩

/-! ### Report compiler -/

lemma setMark_isSome_of_mem {q : String} (h : q ∈ sequenceKeys)
    (sm : StudentMarks) (n : String) (v : ℚ) : (setMark sm q n v).isSome = true := by
  simp only [sequenceKeys, List.mem_cons, List.not_mem_nil, or_false] at h
  rcases h with rfl | rfl | rfl | rfl | rfl | rfl <;> rfl

lemma setMark_none_of_not_mem {q : String} (h : q ∉ sequenceKeys)
    (sm : StudentMarks) (n : String) (v : ℚ) : setMark sm q n v = none := by
  simp only [sequenceKeys, List.mem_cons, List.not_mem_nil, or_false, not_or] at h
  obtain ⟨h1, h2, h3, h4, h5, h6⟩ := h
  simp [setMark, h1, h2, h3, h4, h5, h6]

lemma buildFold_none (studentId : String) (subjects : List Subject) :
    ∀ marks : List Mark,
      marks.foldl (buildStep studentId subjects) none = none
  | [] => rfl
  | _ :: ms => buildFold_none studentId subjects ms

lemma buildFold_isSome (studentId : String) (subjects : List Subject) :
    ∀ (marks : List Mark) (sm : StudentMarks),
      (∀ m ∈ marks, m.studentId = studentId →
        (subjects.find? fun s => s.id == m.subjectId).isSome = true →
        m.sequence ∈ sequenceKeys) →
      (marks.foldl (buildStep studentId subjects) (some sm)).isSome = true
  | [], _, _ => rfl
  | m :: ms, sm, h => by
    have hrest : ∀ m' ∈ ms, m'.studentId = studentId →
        (subjects.find? fun s => s.id == m'.subjectId).isSome = true →
        m'.sequence ∈ sequenceKeys :=
      fun m' hm' => h m' (List.mem_cons_of_mem m hm')
    rw [List.foldl_cons]
    by_cases hsid : m.studentId = studentId
    · have hbeq : (m.studentId == studentId) = true := beq_iff_eq.mpr hsid
      cases hfind : subjects.find? fun s => s.id == m.subjectId with
      | none =>
        have hstep : buildStep studentId subjects (some sm) m = some sm := by
          simp [buildStep, hbeq, hfind]
        rw [hstep]
        exact buildFold_isSome studentId subjects ms sm hrest
      | some subject =>
        have hkey : m.sequence ∈ sequenceKeys :=
          h m (List.mem_cons_self m ms) hsid (by rw [hfind]; rfl)
        have hsome := setMark_isSome_of_mem hkey sm subject.name m.marks
        obtain ⟨sm2, hsm2⟩ := Option.isSome_iff_exists.mp hsome
        have hstep : buildStep studentId subjects (some sm) m = some sm2 := by
          simp [buildStep, hbeq, hfind, hsm2]
        rw [hstep]
        exact buildFold_isSome studentId subjects ms sm2 hrest
    · have hbeq : (m.studentId == studentId) = false :=
        beq_eq_false_iff_ne.mpr hsid
      have hstep : buildStep studentId subjects (some sm) m = some sm := by
        simp [buildStep, hbeq]
      rw [hstep]
      exact buildFold_isSome studentId subjects ms sm hrest

lemma buildFold_none_of_offender (studentId : String) (subjects : List Subject) :
    ∀ (marks : List Mark) (sm : StudentMarks) (m : Mark), m ∈ marks →
      m.studentId = studentId →
      (subjects.find? fun s => s.id == m.subjectId).isSome = true →
      m.sequence ∉ sequenceKeys →
      marks.foldl (buildStep studentId subjects) (some sm) = none
  | [], _, _, hmem, _, _, _ => absurd hmem (List.not_mem_nil _)
  | x :: ms, sm, m, hmem, hsid, hfind, hkey => by
    rw [List.foldl_cons]
    rcases List.mem_cons.mp hmem with rfl | hms
    · have hbeq : (m.studentId == studentId) = true := beq_iff_eq.mpr hsid
      obtain ⟨subject, hsubject⟩ := Option.isSome_iff_exists.mp hfind
      have hstep : buildStep studentId subjects (some sm) m = none := by
        simp [buildStep, hbeq, hsubject, setMark_none_of_not_mem hkey]
      rw [hstep]
      exact buildFold_none studentId subjects ms
    · cases hstep : buildStep studentId subjects (some sm) x with
      | none => exact buildFold_none studentId subjects ms
      | some sm2 =>
        exact buildFold_none_of_offender studentId subjects ms sm2 m hms hsid hfind hkey

/-- C10: Report compilation is total only under the precondition that every
mark belonging to the selected student whose subject id resolves to a known
subject carries one of the six fixed sequence labels: under that precondition
the compiler never reaches the crashing write, while one mark with a matching
studentId, a known subjectId and any other sequence string makes the compiler
write through an undefined nested map and raise a runtime error (crash)
instead of skipping the entry. -/
theorem c10_report_sequence_precondition (studentId : String)
    (students : List Student) (subjects : List Subject) (marks : List Mark) :
    ((∀ m ∈ marks, m.studentId = studentId →
        (subjects.find? fun s => s.id == m.subjectId).isSome = true →
        m.sequence ∈ sequenceKeys) →
      handleGenerateStudentReport studentId students subjects marks
        ≠ ReportOutcome.crash) ∧
    (∀ m ∈ marks, m.studentId = studentId →
      (subjects.find? fun s => s.id == m.subjectId).isSome = true →
      m.sequence ∉ sequenceKeys →
      (students.find? fun s => s.id == studentId).isSome = true →
      handleGenerateStudentReport studentId students subjects marks
        = ReportOutcome.crash) := by
  constructor
  · intro hpre
    unfold handleGenerateStudentReport
    cases hfs : students.find? fun s => s.id == studentId with
    | none => simp
    | some student =>
      have hsome := buildFold_isSome studentId subjects marks emptyStudentMarks hpre
      obtain ⟨sm, hsm⟩ := Option.isSome_iff_exists.mp hsome
      have hsm2 : buildStudentMarks studentId subjects marks = some sm := hsm
      simp [hsm2]
  · intro m hm hsid hfind hkey hstudent
    obtain ⟨student, hfs⟩ := Option.isSome_iff_exists.mp hstudent
    have hnone : buildStudentMarks studentId subjects marks = none :=
      buildFold_none_of_offender studentId subjects marks emptyStudentMarks m hm
        hsid hfind hkey
    simp [handleGenerateStudentReport, hfs, hnone]

theorem c10_report_sequence_precondition_witness :
    ((∀ m ∈ ([⟨"m1", "s1", "b1", "firstSequence", 5⟩] : List Mark),
        m.studentId = "s1" →
        (([⟨"b1", "Math", 20⟩] : List Subject).find?
            fun s => s.id == m.subjectId).isSome = true →
        m.sequence ∈ sequenceKeys) ∧
      handleGenerateStudentReport "s1" [⟨"s1", "Alice"⟩] [⟨"b1", "Math", 20⟩]
        [⟨"m1", "s1", "b1", "firstSequence", 5⟩] ≠ ReportOutcome.crash) ∧
    (handleGenerateStudentReport "s1" [⟨"s1", "Alice"⟩] [⟨"b1", "Math", 20⟩]
      [⟨"m1", "s1", "b1", "bogus", 5⟩] = ReportOutcome.crash) :=
  ⟨⟨by decide,
    (c10_report_sequence_precondition "s1" [⟨"s1", "Alice"⟩] [⟨"b1", "Math", 20⟩]
      [⟨"m1", "s1", "b1", "firstSequence", 5⟩]).1 (by decide)⟩,
    (c10_report_sequence_precondition "s1" [⟨"s1", "Alice"⟩] [⟨"b1", "Math", 20⟩]
      [⟨"m1", "s1", "b1", "bogus", 5⟩]).2 ⟨"m1", "s1", "b1", "bogus", 5⟩
      (by decide) (by decide) (by decide) (by decide) (by decide)⟩

/-- C8 counterexample: report compilation is not total on all inputs — with a
single mark whose studentId matches the selected student, whose subjectId
matches a known subject, and whose sequence label is not one of the six fixed
labels, the compiler raises (crash) instead of skipping, so "no input raises
an error" is false. -/
theorem c8_totality_counterexample :
    handleGenerateStudentReport "s1" [⟨"s1", "Alice"⟩] [⟨"b1", "Math", 20⟩]
      [⟨"m1", "s1", "b1", "unknownSeq", 5⟩] = ReportOutcome.crash := by
  decide

/-- C8 (amended): every aggregation entry point is total and every
denominator-zero case resolves to a default of 0 — `totalPossible = 0` gives
sequence average 0, an empty student list gives empty results and statistics 0,
`sequenceCount = 0` (no entered sequence) gives term average 0 and
`calculateStats []` is `(0, 0)`, and empty `validTerms` gives finalAverage 0 —
and report compilation skips a mark whose subject id matches no subject, does
nothing for an unknown student id, and resolves a display-name lookup miss to
no row; report compilation is however total only provided every mark of the
selected student whose subject id resolves to a known subject carries one of
the six fixed sequence labels. -/
theorem c8_totality_defaults (studentId selectedSequence : String)
    (students : List Student) (subjects : List Subject) (marks : List Mark) :
    ((¬ (subjects.map Subject.total).sum > 0) →
      ∀ r ∈ sequenceRows selectedSequence students subjects marks, r.average = 0) ∧
    (calculateSequenceResults selectedSequence [] subjects marks
      = { results := [], classAverage := 0, passPercentage := 0 }) ∧
    (∀ (sequences : List String) (student : Student),
      (∀ q ∈ sequences,
        ¬ ((subjects.map fun sb => markFor marks student.id sb.id q).sum > 0)) →
      termRows sequences [student] subjects marks
        = [{ student := student.name, totalMarks := 0, average := 0, rank := 0 }]) ∧
    (calculateStats [] = (0, 0)) ∧
    (∀ (student : Student) (r1 r2 r3 : List ResultRow),
      ¬ (termAverageFor r1 student.name > 0) →
      ¬ (termAverageFor r2 student.name > 0) →
      ¬ (termAverageFor r3 student.name > 0) →
      (annualRowFor student r1 r2 r3).finalAverage = 0) ∧
    (∀ (m : Mark) (marks0 : List Mark),
      (subjects.find? fun s => s.id == m.subjectId) = none →
      buildStudentMarks studentId subjects (marks0 ++ [m])
        = buildStudentMarks studentId subjects marks0) ∧
    ((students.find? fun s => s.id == studentId) = none →
      handleGenerateStudentReport studentId students subjects marks
        = ReportOutcome.noStudent) ∧
    ((∀ m ∈ marks, m.studentId = studentId →
        (subjects.find? fun s => s.id == m.subjectId).isSome = true →
        m.sequence ∈ sequenceKeys) →
      handleGenerateStudentReport studentId students subjects marks
        ≠ ReportOutcome.crash) ∧
    (∀ (rows : List ResultRow) (name : String),
      (∀ r ∈ rows, r.student ≠ name) → lookupRowByName rows name = none) := by
  refine ⟨?_, ?_, ?_, rfl, ?_, ?_, ?_, ?_, ?_⟩
  · intro h r hr
    rw [sequenceRows_eq] at hr
    obtain ⟨student, _, rfl⟩ := List.mem_map.mp hr
    exact if_neg h
  · show calculateSequenceResults selectedSequence [] subjects marks = _
    unfold calculateSequenceResults sequenceRows sortByDesc assignRanks assignRanksFrom
    norm_num [List.insertionSort]
  · intro sequences student h
    rw [termRows_eq]
    have hfil : (sequences.filter fun q =>
        decide ((subjects.map fun sb => markFor marks student.id sb.id q).sum > 0))
          = [] := by
      rw [List.filter_eq_nil_iff]
      intro q hq
      simpa using h q hq
    simp [hfil]
  · intro student r1 r2 r3 h1 h2 h3
    have hfil : ([termAverageFor r1 student.name, termAverageFor r2 student.name,
        termAverageFor r3 student.name].filter fun avg => decide (avg > 0)) = [] := by
      simp [List.filter_cons, h1, h2, h3]
    simp [annualRowFor, hfil]
  · intro m marks0 hfind
    unfold buildStudentMarks
    rw [List.foldl_append]
    cases marks0.foldl (buildStep studentId subjects) (some emptyStudentMarks) with
    | none => simp [buildStep]
    | some sm => simp [buildStep, hfind]
  · intro h
    simp [handleGenerateStudentReport, h]
  · intro hpre
    unfold handleGenerateStudentReport
    cases hfs : students.find? fun s => s.id == studentId with
    | none => simp
    | some student =>
      have hsome := buildFold_isSome studentId subjects marks emptyStudentMarks hpre
      obtain ⟨sm, hsm⟩ := Option.isSome_iff_exists.mp hsome
      have hsm2 : buildStudentMarks studentId subjects marks = some sm := hsm
      simp [hsm2]
  · intro rows name h
    unfold lookupRowByName
    rw [List.find?_eq_none]
    intro r hr
    simp only [beq_iff_eq]
    exact h r hr

theorem c8_totality_defaults_witness :
    ((¬ ((([] : List Subject).map Subject.total).sum > 0)) ∧
      (∀ r ∈ sequenceRows "firstSequence" ([] : List Student) [] [], r.average = 0)) ∧
    ((∀ q ∈ (["firstSequence"] : List String),
        ¬ ((([] : List Subject).map
          fun sb => markFor [] (Student.mk "s1" "A").id sb.id q).sum > 0)) ∧
      termRows ["firstSequence"] [⟨"s1", "A"⟩] [] []
        = [{ student := "A", totalMarks := 0, average := 0, rank := 0 }]) ∧
    ((¬ (termAverageFor [] (Student.mk "s1" "A").name > 0)) ∧
      (annualRowFor ⟨"s1", "A"⟩ [] [] []).finalAverage = 0) ∧
    ((([] : List Subject).find?
        (fun s => s.id == (Mark.mk "m1" "sX" "bZ" "firstSequence" 3).subjectId) = none) ∧
      buildStudentMarks "sX" [] ([] ++ [⟨"m1", "sX", "bZ", "firstSequence", 3⟩])
        = buildStudentMarks "sX" [] []) ∧
    ((([] : List Student).find? (fun s => s.id == "sX") = none) ∧
      handleGenerateStudentReport "sX" [] [] [] = ReportOutcome.noStudent) ∧
    ((∀ m ∈ ([] : List Mark), m.studentId = "sX" →
        (([] : List Subject).find? fun s => s.id == m.subjectId).isSome = true →
        m.sequence ∈ sequenceKeys) ∧
      handleGenerateStudentReport "sX" [] [] [] ≠ ReportOutcome.crash) ∧
    ((∀ r ∈ ([] : List ResultRow), r.student ≠ "A") ∧
      lookupRowByName [] "A" = none) :=
  ⟨⟨by decide, (c8_totality_defaults "sX" "firstSequence" [] [] []).1 (by decide)⟩,
    ⟨by decide, (c8_totality_defaults "sX" "firstSequence" [] [] []).2.2.1
      ["firstSequence"] ⟨"s1", "A"⟩ (by decide)⟩,
    ⟨by decide, (c8_totality_defaults "sX" "firstSequence" [] [] []).2.2.2.2.1
      ⟨"s1", "A"⟩ [] [] [] (by decide) (by decide) (by decide)⟩,
    ⟨by decide, (c8_totality_defaults "sX" "firstSequence" [] [] []).2.2.2.2.2.1
      ⟨"m1", "sX", "bZ", "firstSequence", 3⟩ [] (by decide)⟩,
    ⟨by decide, (c8_totality_defaults "sX" "firstSequence" [] [] []).2.2.2.2.2.2.1
      (by decide)⟩,
    ⟨by decide, (c8_totality_defaults "sX" "firstSequence" [] [] []).2.2.2.2.2.2.2.1
      (by decide)⟩,
    ⟨by decide, (c8_totality_defaults "sX" "firstSequence" [] [] []).2.2.2.2.2.2.2.2
      [] "A" (by decide)⟩⟩
